import Mathlib

/-!
Shallow embedding of the train-seat booking engine of this repository
(`app/rest_api/routes.py` over the SQLAlchemy models of `app/models.py`),
together with proofs of the specified properties.

The Inventory Store is modelled as explicit lists of records; SQLAlchemy
queries (`filter ... first()` / `.all()`) become `List.find?` / `List.filter`;
row updates keyed by primary key become maps over the lists; an
`HTTPException` becomes an `Except.error` carrying the status code and detail
string. The mutating operations (`create_reservation`, `cancel_reservation`)
return the resulting store next to the outcome: the Python session only
commits after all checks pass, so every error path returns the store
unchanged. Status, class and ticket fields are free strings, as in the
source (`models.py` uses `String` columns, not enums).
-/

deriving instance DecidableEq for Except

namespace SOAProject

/-- `trains` table row (`app/models.py`, class `Train`). Datetimes are
modelled as integers (only their ordering matters to the engine). -/
structure Train where
  train_id : Nat
  departure_station : String
  arrival_station : String
  departure_datetime : Int
  arrival_datetime : Int
deriving DecidableEq, Repr

/-- `seats` table row (`app/models.py`, class `Seat`). The fare is a
positive decimal (`Float` column); modelled as a rational. -/
structure Seat where
  seat_id : Nat
  train_id : Nat
  seat_class : String
  status : String
  fare : Rat
deriving DecidableEq, Repr

/-- `clients` table row (`app/models.py`, class `Client`); the password is
irrelevant to the booking engine. -/
structure Client where
  client_id : Nat
  username : String
deriving DecidableEq, Repr

/-- `reservations` table row (`app/models.py`, class `Reservation`). -/
structure Reservation where
  reservation_id : Nat
  client_id : Nat
  seat_id : Nat
  ticket_type : String
  status : String
deriving DecidableEq, Repr

/-- The Inventory Store: the four tables plus the autoincrement counter for
reservation primary keys. -/
structure Store where
  trains : List Train
  seats : List Seat
  clients : List Client
  reservations : List Reservation
  nextReservationId : Nat
deriving DecidableEq, Repr

/-- A raised `HTTPException`: status code and detail message. -/
structure HTTPError where
  status_code : Nat
  detail : String
deriving DecidableEq, Repr

/-- Python truthiness of an optional string (`if seat_class:`): `None` and
the empty string are falsy. -/
def optStrTruthy : Option String → Bool
  | none => false
  | some s => s != ""

/-- Python truthiness of an optional count (`if min_available_seats:`):
`None` and `0` are falsy. -/
def optNatTruthy : Option Nat → Bool
  | none => false
  | some n => n != 0

/-- Response schema of `create_reservation` (`ReservationResponse`). -/
structure ReservationResponse where
  reservation_id : Nat
  client_id : Nat
  seat_id : Nat
  train_id : Nat
  ticket_type : String
  status : String
deriving DecidableEq, Repr

/-- Response schema of `filter_trains` (`TrainResponse`). -/
structure TrainResponse where
  train_id : Nat
  departure_station : String
  arrival_station : String
  departure_date : Int
  arrival_date : Int
  available_seats_first : Nat
  available_seats_business : Nat
  available_seats_standard : Nat
deriving DecidableEq, Repr

/-- Response schema of `get_train_seats` (`SeatResponse`). -/
structure SeatResponse where
  seat_id : Nat
  train_id : Nat
  seat_class : String
  fare : Rat
  status : String
deriving DecidableEq, Repr

/-- Response of `get_train_seats` (`GroupedSeatsResponse`): the `seats`
mapping is an association list from class name to seat bucket. -/
structure GroupedSeatsResponse where
  train_id : Nat
  seats : List (String × List SeatResponse)
deriving DecidableEq, Repr

/-- One row of the `get_client_reservations` response: `train_id` is looked
up through the seat and is `None` when the seat row is missing. -/
structure ClientReservationRecord where
  reservation_id : Nat
  seat_id : Nat
  train_id : Option Nat
  ticket_type : String
  status : String
deriving DecidableEq, Repr

/-- The seats of a train that count as available for `filter_trains`:
joined on `train_id`, `status == "Available"`, and the class filter when a
truthy `seat_class` is supplied (`routes.py` lines 36-52). -/
def availableSeatsOn (db : Store) (tid : Nat) (seat_class : Option String) : List Seat :=
  db.seats.filter (fun s =>
    s.train_id == tid && s.status == "Available" &&
    (if optStrTruthy seat_class then s.seat_class == seat_class.getD "" else true))

/-- Per-class live count of Available seats of a train, recomputed for the
response body (`routes.py` lines 66-70). -/
def countClassAvailable (db : Store) (tid : Nat) (cls : String) : Nat :=
  (db.seats.filter (fun s =>
    s.train_id == tid && s.seat_class == cls && s.status == "Available")).length

/-- The row filter of the `filter_trains` query on the train side: exact
station equality and the two inclusive date bounds, both on
`departure_datetime` (`routes.py` lines 39-49). -/
def trainRowFilter (dep arr : String) (od rd : Option Int) (t : Train) : Bool :=
  t.departure_station == dep && t.arrival_station == arr &&
  (match od with | some d => decide (d ≤ t.departure_datetime) | none => true) &&
  (match rd with | some d => decide (t.departure_datetime ≤ d) | none => true)

/-- The train response row built by `filter_trains` (`routes.py` 72-81). -/
def mkTrainResponse (db : Store) (t : Train) : TrainResponse :=
  { train_id := t.train_id
    departure_station := t.departure_station
    arrival_station := t.arrival_station
    departure_date := t.departure_datetime
    arrival_date := t.arrival_datetime
    available_seats_first := countClassAvailable db t.train_id ("First")
    available_seats_business := countClassAvailable db t.train_id ("Business")
    available_seats_standard := countClassAvailable db t.train_id ("Standard") }

/-- The whole per-train condition of the `filter_trains` query: the row
filter, at least one surviving seat row (the SQL inner join plus
`GROUP BY train_id` keeps a train exactly when one does), and the
`HAVING count >= min_available_seats` clause, added only when the
parameter is truthy (Python `if min_available_seats:`, so `0` disables
it). -/
def filterTrainsPred (dep arr : String) (od rd : Option Int)
    (min_available_seats : Option Nat) (seat_class : Option String)
    (db : Store) (t : Train) : Bool :=
  trainRowFilter dep arr od rd t &&
  decide (1 ≤ (availableSeatsOn db t.train_id seat_class).length) &&
  (if optNatTruthy min_available_seats then
    decide (min_available_seats.getD 0 ≤ (availableSeatsOn db t.train_id seat_class).length)
  else true)

/-- `GET /trains/filter` (`routes.py` lines 18-83). -/
def filter_trains (dep arr : String) (od rd : Option Int)
    (min_available_seats : Option Nat) (seat_class : Option String)
    (db : Store) : Except HTTPError (List TrainResponse) :=
  if (db.trains.filter
      (filterTrainsPred dep arr od rd min_available_seats seat_class db)).isEmpty then
    .error ⟨404, "No available trains found."⟩
  else
    .ok ((db.trains.filter
      (filterTrainsPred dep arr od rd min_available_seats seat_class db)).map
      (mkTrainResponse db))

/-- The spec's §4.1 wording of when a train qualifies for `filter_trains`:
stations equal under case-sensitive string equality, the optional
inclusive date bounds on `departure_datetime`, at least one Available seat
(restricted to `seat_class` when supplied), and, when
`min_available_seats` is given, an Available-seat count (after the class
filter) meeting or exceeding it. Stated from the spec's words, to be
proven equivalent to the source predicate `filterTrainsPred`. -/
def qualifiesSpec (dep arr : String) (od rd : Option Int)
    (min_available_seats : Option Nat) (seat_class : Option String)
    (db : Store) (t : Train) : Prop :=
  t.departure_station = dep ∧ t.arrival_station = arr ∧
  (∀ d, od = some d → d ≤ t.departure_datetime) ∧
  (∀ d, rd = some d → t.departure_datetime ≤ d) ∧
  1 ≤ (availableSeatsOn db t.train_id seat_class).length ∧
  (∀ m, min_available_seats = some m →
    m ≤ (availableSeatsOn db t.train_id seat_class).length)

/-- Insertion (descending by fare) used to model `ORDER BY fare DESC`. -/
def insertFareDesc (s : Seat) : List Seat → List Seat
  | [] => [s]
  | t :: ts => if t.fare < s.fare then s :: t :: ts else t :: insertFareDesc s ts

/-- `ORDER BY Seat.fare DESC` (`routes.py` line 111): sorts by fare, highest
first; the relative order of equal fares is unspecified in SQL, the model
keeps it stable. -/
def sortByFareDesc : List Seat → List Seat
  | [] => []
  | s :: ss => insertFareDesc s (sortByFareDesc ss)

/-- Serialization of a seat row (`routes.py` lines 117-126). -/
def toSeatResponse (s : Seat) : SeatResponse :=
  { seat_id := s.seat_id, train_id := s.train_id, seat_class := s.seat_class
    fare := s.fare, status := s.status }

/-- The seat rows the `get_train_seats` query returns before ordering:
Available seats of the train, restricted to the class filter when a truthy
`seat_class` is supplied (`routes.py` lines 101-108). -/
def availableSeatsQuery (train_id : Nat) (seat_class : Option String)
    (db : Store) : List Seat :=
  if optStrTruthy seat_class then
    (db.seats.filter (fun s => s.train_id == train_id && s.status == "Available")).filter
      (fun s => s.seat_class == seat_class.getD "")
  else
    db.seats.filter (fun s => s.train_id == train_id && s.status == "Available")

/-- The serialized, fare-descending seat list of `get_train_seats`
(`routes.py` lines 111-126). -/
def serializedSeats (train_id : Nat) (seat_class : Option String)
    (db : Store) : List SeatResponse :=
  (sortByFareDesc (availableSeatsQuery train_id seat_class db)).map toSeatResponse

/-- One class bucket of the grouped response (`routes.py` lines 129-133). -/
def seatBucket (train_id : Nat) (seat_class : Option String) (db : Store)
    (cls : String) : List SeatResponse :=
  (serializedSeats train_id seat_class db).filter (fun s => s.seat_class == cls)

/-- `GET /trains/{train_id}/seats` (`routes.py` lines 91-147): only
Available seats of the train, optional class filter, ordered by fare
descending, grouped into the three class buckets; with a truthy
`seat_class` the response holds only that bucket (`dict.get(seat_class, [])`,
so an unknown class name yields an empty bucket). -/
def get_train_seats (train_id : Nat) (seat_class : Option String)
    (db : Store) : Except HTTPError GroupedSeatsResponse :=
  if (sortByFareDesc (availableSeatsQuery train_id seat_class db)).isEmpty then
    .error ⟨404, "No available seats found for the specified train."⟩
  else if optStrTruthy seat_class then
    .ok ⟨train_id,
      [(seat_class.getD "",
        if seat_class.getD "" == "First" || seat_class.getD "" == "Business" ||
            seat_class.getD "" == "Standard" then
          seatBucket train_id seat_class db (seat_class.getD "")
        else [])]⟩
  else
    .ok ⟨train_id,
      [("First", seatBucket train_id seat_class db ("First")),
       ("Business", seatBucket train_id seat_class db ("Business")),
       ("Standard", seatBucket train_id seat_class db ("Standard"))]⟩

/-- `GET /seats/{seat_id}` (`routes.py` lines 154-172). -/
def get_seat (seat_id : Nat) (db : Store) : Except HTTPError Seat :=
  match db.seats.find? (fun s => s.seat_id == seat_id) with
  | none => .error ⟨404, "Seat not found."⟩
  | some seat => .ok seat

/-- `GET /trains/{train_id}` (`routes.py` lines 179-197). -/
def get_train (train_id : Nat) (db : Store) : Except HTTPError Train :=
  match db.trains.find? (fun t => t.train_id == train_id) with
  | none => .error ⟨404, "Train not found."⟩
  | some train => .ok train

/-- The reservation row inserted by a successful `create_reservation`. -/
def createdReservation (cid sid : Nat) (tt : String) (db : Store) : Reservation :=
  { reservation_id := db.nextReservationId, client_id := cid, seat_id := sid
    ticket_type := tt, status := "Confirmed" }

/-- The store produced by a successful `create_reservation`. -/
def storeAfterCreate (cid sid : Nat) (tt : String) (db : Store) : Store :=
  { db with
    reservations := db.reservations ++ [createdReservation cid sid tt db]
    nextReservationId := db.nextReservationId + 1
    seats := db.seats.map (fun s =>
      if s.seat_id == sid then { s with status := "Reserved" } else s) }

/-- The store produced by a successful `cancel_reservation` of reservation
`rid` sitting on seat `sid`. -/
def storeAfterCancel (rid sid : Nat) (db : Store) : Store :=
  { db with
    reservations := db.reservations.map (fun r =>
      if r.reservation_id == rid then { r with status := "Cancelled" } else r)
    seats := db.seats.map (fun s =>
      if s.seat_id == sid then { s with status := "Available" } else s) }

/-- `POST /reservations` (`routes.py` lines 205-246). Checks, in source
order: ticket type, client existence, then a single query for a seat with
the given id **and** status Available (so a Reserved seat and a missing
seat produce the same 404). On success a Confirmed reservation is inserted
and the seat row is updated to Reserved; the session commits only then, so
every error leaves the store unchanged. -/
def create_reservation (client_id seat_id : Nat) (ticket_type : String)
    (db : Store) : Except HTTPError ReservationResponse × Store :=
  if ticket_type != "Flexible" && ticket_type != "NonFlexible" then
    (.error ⟨400, "Invalid ticket type. Must be Flexible or NonFlexible."⟩, db)
  else
    match db.clients.find? (fun c => c.client_id == client_id) with
    | none => (.error ⟨404, "Client not found."⟩, db)
    | some _ =>
      match db.seats.find? (fun s => s.seat_id == seat_id && s.status == "Available") with
      | none => (.error ⟨404, "Seat not found or already reserved."⟩, db)
      | some seat =>
        (.ok { reservation_id := db.nextReservationId
               client_id := client_id
               seat_id := seat_id
               train_id := seat.train_id
               ticket_type := ticket_type
               status := "Confirmed" },
         storeAfterCreate client_id seat_id ticket_type db)

/-- The reservation rows `get_client_reservations` reports: the client's
reservations, restricted to the status filter when it is truthy
(`routes.py` lines 269-276). -/
def clientReservationsQuery (client_id : Nat) (reservation_status : Option String)
    (db : Store) : List Reservation :=
  if optStrTruthy reservation_status then
    (db.reservations.filter (fun r => r.client_id == client_id)).filter
      (fun r => r.status == reservation_status.getD "")
  else
    db.reservations.filter (fun r => r.client_id == client_id)

/-- One row of the `get_client_reservations` response (`routes.py` lines
283-291): the seat is looked up again to derive `train_id`, which is
`None` when the seat row is missing. -/
def mkClientReservationRecord (db : Store) (r : Reservation) : ClientReservationRecord :=
  { reservation_id := r.reservation_id
    seat_id := r.seat_id
    train_id := (db.seats.find? (fun s => s.seat_id == r.seat_id)).map Seat.train_id
    ticket_type := r.ticket_type
    status := r.status }

/-- `GET /clients/{client_id}/reservations` (`routes.py` lines 253-293). -/
def get_client_reservations (client_id : Nat) (reservation_status : Option String)
    (db : Store) : Except HTTPError (List ClientReservationRecord) :=
  match db.clients.find? (fun c => c.client_id == client_id) with
  | none => .error ⟨404, "Client not found."⟩
  | some _ =>
    if (clientReservationsQuery client_id reservation_status db).isEmpty then
      .error ⟨404, "No reservations found for the specified client."⟩
    else
      .ok ((clientReservationsQuery client_id reservation_status db).map
        (mkClientReservationRecord db))

/-- `PUT /reservations/{reservation_id}/cancel` (`routes.py` lines
300-335). Note the already-cancelled branch raises status code **400**
(`routes.py` line 314). On success the reservation row becomes Cancelled
and the seat row becomes Available; the session commits only then. -/
def cancel_reservation (reservation_id : Nat)
    (db : Store) : Except HTTPError ReservationResponse × Store :=
  match db.reservations.find? (fun r => r.reservation_id == reservation_id) with
  | none => (.error ⟨404, "Reservation not found."⟩, db)
  | some reservation =>
    if reservation.status == "Cancelled" then
      (.error ⟨400, "Reservation is already cancelled."⟩, db)
    else
      match db.seats.find? (fun s => s.seat_id == reservation.seat_id) with
      | none => (.error ⟨404, "Associated seat not found."⟩, db)
      | some seat =>
        (.ok { reservation_id := reservation.reservation_id
               client_id := reservation.client_id
               seat_id := reservation.seat_id
               train_id := seat.train_id
               ticket_type := reservation.ticket_type
               status := "Cancelled" },
         storeAfterCancel reservation_id reservation.seat_id db)

/-- Sequential execution of a batch of `create_reservation` requests, all
aimed at the same seat. Under the scheduling model of the spec (§5: each
operation runs to completion against the store, no mid-operation
suspension) a set of concurrent calls is exactly some sequential ordering
of whole operations; quantifying over the request list covers every
ordering. Each request is a `(client_id, ticket_type)` pair. -/
def runCreates (seat_id : Nat) : List (Nat × String) → Store →
    List (Except HTTPError ReservationResponse) × Store
  | [], db => ([], db)
  | req :: rest, db =>
    let out := create_reservation req.1 seat_id req.2 db
    let tail := runCreates seat_id rest out.2
    (out.1 :: tail.1, tail.2)

/-- The Confirmed reservations sitting on a given seat. -/
def confirmedOn (db : Store) (sid : Nat) : List Reservation :=
  db.reservations.filter (fun r => r.seat_id == sid && r.status == "Confirmed")

/-- Store well-formedness, maintained by the engine and guaranteed by the
schema: reservation statuses are drawn from the two-state lifecycle,
primary keys are below the autoincrement counter and pairwise distinct,
and a seat carries at most one Confirmed (active) reservation. -/
def wellFormed (db : Store) : Prop :=
  (∀ r ∈ db.reservations, r.status = "Confirmed" ∨ r.status = "Cancelled") ∧
  (∀ r ∈ db.reservations, r.reservation_id < db.nextReservationId) ∧
  db.reservations.Pairwise (fun a b => a.reservation_id ≠ b.reservation_id) ∧
  (∀ r1 ∈ db.reservations, ∀ r2 ∈ db.reservations,
    r1.status = "Confirmed" → r2.status = "Confirmed" → r1.seat_id = r2.seat_id →
    r1.reservation_id = r2.reservation_id)

/-- The cross-entity invariant of the spec: a Seat is Reserved iff it has a
Confirmed reservation, and Available iff all reservations on it (possibly
none) are Cancelled. -/
def seatReservationInvariant (db : Store) : Prop :=
  ∀ s ∈ db.seats,
    (s.status = "Reserved" ↔ ∃ r ∈ db.reservations, r.seat_id = s.seat_id ∧ r.status = "Confirmed") ∧
    (s.status = "Available" ↔ ∀ r ∈ db.reservations, r.seat_id = s.seat_id → r.status = "Cancelled")

/-- A sample available seat, mirroring the seeded data shape. -/
def sampleSeat : Seat :=
  { seat_id := 10, train_id := 1, seat_class := "Standard", status := "Available", fare := 50 }

/-- A small concrete store: one train, one available seat, the seeded
client, no reservations yet. -/
def sampleStore : Store :=
  { trains := [{ train_id := 1, departure_station := "StationA", arrival_station := "StationB",
                 departure_datetime := 5, arrival_datetime := 6 }]
    seats := [sampleSeat]
    clients := [{ client_id := 1, username := "testuser" }]
    reservations := []
    nextReservationId := 1 }

/-- A concrete store holding an already-cancelled reservation on an
available seat. -/
def cancelledStore : Store :=
  { trains := [{ train_id := 1, departure_station := "StationA", arrival_station := "StationB",
                 departure_datetime := 5, arrival_datetime := 6 }]
    seats := [sampleSeat]
    clients := [{ client_id := 1, username := "testuser" }]
    reservations := [{ reservation_id := 1, client_id := 1, seat_id := 10,
                       ticket_type := "Flexible", status := "Cancelled" }]
    nextReservationId := 2 }

/-- Train T1 of the spec's filter-correctness example: StationA→StationB,
departs day 5, three Available Standard seats. -/
def filterT1 : Train :=
  { train_id := 1, departure_station := "StationA", arrival_station := "StationB",
    departure_datetime := 5, arrival_datetime := 6 }

/-- Train T2 of the spec's filter-correctness example: StationA→StationB,
departs day 10, one Available Standard seat. -/
def filterT2 : Train :=
  { train_id := 2, departure_station := "StationA", arrival_station := "StationB",
    departure_datetime := 10, arrival_datetime := 11 }

/-- The concrete store of the spec's filter-correctness example. -/
def filterStore : Store :=
  { trains := [filterT1, filterT2]
    seats :=
      [{ seat_id := 1, train_id := 1, seat_class := "Standard", status := "Available", fare := 40 },
       { seat_id := 2, train_id := 1, seat_class := "Standard", status := "Available", fare := 55 },
       { seat_id := 3, train_id := 1, seat_class := "Standard", status := "Available", fare := 45 },
       { seat_id := 4, train_id := 2, seat_class := "Standard", status := "Available", fare := 50 },
       { seat_id := 5, train_id := 2, seat_class := "Standard", status := "Reserved", fare := 60 },
       { seat_id := 6, train_id := 2, seat_class := "First", status := "Available", fare := 90 }]
    clients := [{ client_id := 1, username := "testuser" }]
    reservations := [{ reservation_id := 1, client_id := 1, seat_id := 5,
                       ticket_type := "Flexible", status := "Confirmed" }]
    nextReservationId := 2 }

/-- The grouped response `get_train_seats` produces for train 1 of
`filterStore` with no class filter: the Standard bucket comes out
fare-descending (55, 45, 40). -/
def exampleSeatsResponse : GroupedSeatsResponse :=
  { train_id := 1
    seats := [("First", []), ("Business", []),
      ("Standard",
       [{ seat_id := 2, train_id := 1, seat_class := "Standard", fare := 55,
          status := "Available" },
        { seat_id := 3, train_id := 1, seat_class := "Standard", fare := 45,
          status := "Available" },
        { seat_id := 1, train_id := 1, seat_class := "Standard", fare := 40,
          status := "Available" }])] }

instance wellFormed.instDecidable (db : Store) : Decidable (wellFormed db) := by
  unfold wellFormed; infer_instance

instance seatReservationInvariant.instDecidable (db : Store) :
    Decidable (seatReservationInvariant db) := by
  unfold seatReservationInvariant; infer_instance

/-! ## Helper lemmas -/

theorem find?_eq_none_iff_not_exists {α : Type} (p : α → Bool) (l : List α) :
    l.find? p = none ↔ ¬ ∃ x ∈ l, p x = true := by
  simp [List.find?_eq_none]

/-- Case analysis on `create_reservation`: either it fails, returning the
store unchanged, or the checks passed (valid ticket type and an Available
seat row found) and both the response and the new store have the success
shape. -/
theorem create_reservation_cases (cid sid : Nat) (tt : String) (db : Store) :
    (∃ e, create_reservation cid sid tt db = (.error e, db)) ∨
    (∃ seat, db.seats.find? (fun s => s.seat_id == sid && s.status == "Available") = some seat ∧
      (tt = "Flexible" ∨ tt = "NonFlexible") ∧
      create_reservation cid sid tt db =
        (.ok { reservation_id := db.nextReservationId, client_id := cid, seat_id := sid,
               train_id := seat.train_id, ticket_type := tt, status := "Confirmed" },
         storeAfterCreate cid sid tt db)) := by
  unfold create_reservation
  split
  · exact .inl ⟨_, rfl⟩
  · rename_i hTT
    split
    · exact .inl ⟨_, rfl⟩
    · split
      · exact .inl ⟨_, rfl⟩
      · rename_i seat heq
        refine .inr ⟨seat, heq, ?_, rfl⟩
        rw [or_iff_not_imp_left]
        simpa [not_and_or] using hTT

/-- Case analysis on `cancel_reservation`: either it fails, returning the
store unchanged, or the reservation was found not-Cancelled with its seat
present, and both the response and the new store have the success shape. -/
theorem cancel_reservation_cases (rid : Nat) (db : Store) :
    (∃ e, cancel_reservation rid db = (.error e, db)) ∨
    (∃ reservation seat,
      db.reservations.find? (fun r => r.reservation_id == rid) = some reservation ∧
      reservation.status ≠ "Cancelled" ∧
      db.seats.find? (fun s => s.seat_id == reservation.seat_id) = some seat ∧
      cancel_reservation rid db =
        (.ok { reservation_id := reservation.reservation_id, client_id := reservation.client_id,
               seat_id := reservation.seat_id, train_id := seat.train_id,
               ticket_type := reservation.ticket_type, status := "Cancelled" },
         storeAfterCancel rid reservation.seat_id db)) := by
  unfold cancel_reservation
  split
  · exact .inl ⟨_, rfl⟩
  · rename_i reservation hRes
    split
    · exact .inl ⟨_, rfl⟩
    · rename_i hSt
      split
      · exact .inl ⟨_, rfl⟩
      · rename_i seat hSeat
        refine .inr ⟨reservation, seat, hRes, ?_, hSeat, rfl⟩
        simpa using hSt

/-! ## Claim theorems -/

/-- C10: whenever `create_reservation` or `cancel_reservation` fails with
any error, the store is left unchanged: no Reservation is created or
mutated and no Seat status changes (the Python session only commits after
all checks pass). -/
theorem failed_operations_leave_store_unchanged (db : Store) (cid sid rid : Nat) (tt : String) :
    (∀ e, (create_reservation cid sid tt db).1 = .error e →
      (create_reservation cid sid tt db).2 = db) ∧
    (∀ e, (cancel_reservation rid db).1 = .error e →
      (cancel_reservation rid db).2 = db) := by
  constructor
  · intro e h
    rcases create_reservation_cases cid sid tt db with ⟨e', hE⟩ | ⟨seat, _, _, hOk⟩
    · rw [hE]
    · rw [hOk] at h
      exact absurd h (by simp)
  · intro e h
    rcases cancel_reservation_cases rid db with ⟨e', hE⟩ | ⟨r, seat, _, _, _, hOk⟩
    · rw [hE]
    · rw [hOk] at h
      exact absurd h (by simp)

/-- C10 witness: a failed creation (unknown seat) and a failed cancellation
(unknown reservation) on the sample store leave it unchanged. -/
theorem failed_operations_leave_store_unchanged_witness :
    (create_reservation 1 99 "Flexible" sampleStore).2 = sampleStore ∧
    (cancel_reservation 99 sampleStore).2 = sampleStore :=
  ⟨(failed_operations_leave_store_unchanged sampleStore 1 99 99 "Flexible").1
      ⟨404, "Seat not found or already reserved."⟩ rfl,
   (failed_operations_leave_store_unchanged sampleStore 1 99 99 "Flexible").2
      ⟨404, "Reservation not found."⟩ rfl⟩

/-- C2: `create_reservation(client_id, seat_id, ticket_type)` checks its
preconditions in this order and fails with the first violated one: a
ticket type other than Flexible/NonFlexible → 400 InvalidArgument; no
client with `client_id` → 404 NotFound; no seat with `seat_id` and status
Available (a Reserved seat is indistinguishable from a missing one) → 404
NotFound. If all hold it records a Confirmed reservation, flips the seat
to Reserved, and returns the reservation including the `train_id` derived
from the seat. -/
theorem create_reservation_checks_in_order (cid sid : Nat) (tt : String) (db : Store) :
    (¬ (tt = "Flexible" ∨ tt = "NonFlexible") →
      create_reservation cid sid tt db =
        (.error ⟨400, "Invalid ticket type. Must be Flexible or NonFlexible."⟩, db)) ∧
    ((tt = "Flexible" ∨ tt = "NonFlexible") →
      (¬ ∃ c ∈ db.clients, c.client_id = cid) →
      create_reservation cid sid tt db = (.error ⟨404, "Client not found."⟩, db)) ∧
    ((tt = "Flexible" ∨ tt = "NonFlexible") →
      (∃ c ∈ db.clients, c.client_id = cid) →
      (¬ ∃ s ∈ db.seats, s.seat_id = sid ∧ s.status = "Available") →
      create_reservation cid sid tt db =
        (.error ⟨404, "Seat not found or already reserved."⟩, db)) ∧
    (∀ seat, (tt = "Flexible" ∨ tt = "NonFlexible") →
      (∃ c ∈ db.clients, c.client_id = cid) →
      db.seats.find? (fun s => s.seat_id == sid && s.status == "Available") = some seat →
      create_reservation cid sid tt db =
        (.ok { reservation_id := db.nextReservationId, client_id := cid, seat_id := sid,
               train_id := seat.train_id, ticket_type := tt, status := "Confirmed" },
         storeAfterCreate cid sid tt db) ∧
      seat ∈ db.seats ∧ seat.status = "Available" ∧
      (∀ s ∈ (storeAfterCreate cid sid tt db).seats, s.seat_id = sid → s.status = "Reserved") ∧
      createdReservation cid sid tt db ∈ (storeAfterCreate cid sid tt db).reservations ∧
      (createdReservation cid sid tt db).status = "Confirmed") := by
  refine ⟨?_, ?_, ?_, ?_⟩
  · intro h
    rw [not_or] at h
    unfold create_reservation
    rw [if_pos (by simp [h.1, h.2])]
  · intro htt hcl
    have hnone : db.clients.find? (fun c => c.client_id == cid) = none := by
      rw [List.find?_eq_none]
      intro c hc
      simp only [beq_iff_eq]
      exact fun h' => hcl ⟨c, hc, h'⟩
    rcases htt with h | h <;> subst h <;> simp [create_reservation, hnone]
  · intro htt hcl hseat
    have hnone : db.seats.find? (fun s => s.seat_id == sid && s.status == "Available") = none := by
      rw [List.find?_eq_none]
      intro s hs
      simp only [Bool.and_eq_true, beq_iff_eq, not_and]
      exact fun h1 h2 => hseat ⟨s, hs, h1, h2⟩
    rcases hfc : db.clients.find? (fun c => c.client_id == cid) with _ | c
    · obtain ⟨c, hc, hcid⟩ := hcl
      rw [List.find?_eq_none] at hfc
      exact absurd (by simpa using hfc c hc) (by simpa using hcid)
    · rcases htt with h | h <;> subst h <;> simp [create_reservation, hfc, hnone]
  · intro seat htt hcl hseat
    rcases hfc : db.clients.find? (fun c => c.client_id == cid) with _ | c
    · obtain ⟨c, hc, hcid⟩ := hcl
      rw [List.find?_eq_none] at hfc
      exact absurd (by simpa using hfc c hc) (by simpa using hcid)
    · have hmem := List.mem_of_find?_eq_some hseat
      have hprop : seat.seat_id = sid ∧ seat.status = "Available" := by
        simpa using List.find?_some hseat
      refine ⟨?_, hmem, hprop.2, ?_, ?_, rfl⟩
      · rcases htt with h | h <;> subst h <;> simp [create_reservation, hfc, hseat]
      · intro s hs hsid
        unfold storeAfterCreate at hs
        simp only [List.mem_map] at hs
        obtain ⟨s0, _, rfl⟩ := hs
        by_cases h0 : s0.seat_id = sid
        · simp [h0]
        · rw [if_neg (by simpa using h0)] at hsid ⊢
          exact absurd hsid h0
      · simp [storeAfterCreate]

/-- C2 witness: on the sample store, creating a Flexible reservation for
client 1 on available seat 10 succeeds with the success shape. -/
theorem create_reservation_checks_in_order_witness :
    create_reservation 1 10 "Flexible" sampleStore =
      (.ok { reservation_id := 1, client_id := 1, seat_id := 10, train_id := 1,
             ticket_type := "Flexible", status := "Confirmed" },
       storeAfterCreate 1 10 "Flexible" sampleStore) :=
  ((create_reservation_checks_in_order 1 10 "Flexible" sampleStore).2.2.2 sampleSeat
    (Or.inl rfl) ⟨⟨1, "testuser"⟩, by decide, rfl⟩ rfl).1

/-- C3 counterexample: cancelling an already-cancelled reservation raises
status code 400 — the code used for InvalidArgument (`routes.py` line 314)
— not the Conflict code 409 of the spec's taxonomy (§6): the claim that
this failure is a Conflict is false on the code. -/
theorem cancel_already_cancelled_counterexample :
    (cancel_reservation 1 cancelledStore).1 =
      .error ⟨400, "Reservation is already cancelled."⟩ ∧
    ¬ ∃ d, (cancel_reservation 1 cancelledStore).1 = .error ⟨409, d⟩ := by
  refine ⟨rfl, ?_⟩
  rintro ⟨d, hd⟩
  have h : (cancel_reservation 1 cancelledStore).1 =
      .error ⟨400, "Reservation is already cancelled."⟩ := rfl
  rw [h] at hd
  injection hd with h'
  have h400 : (400 : Nat) = 409 := congrArg HTTPError.status_code h'
  exact absurd h400 (by decide)

/-- C3 (amended): `cancel_reservation` is terminal and its
already-cancelled failure carries status code 400 (the InvalidArgument
code, not 409 Conflict): a missing reservation fails 404 NotFound; an
already-Cancelled one fails 400; a Confirmed one succeeds, setting the
reservation Cancelled and its seat Available, and a second cancel of the
same id then fails with the 400 already-cancelled error, the seat ending
Available. -/
theorem cancel_reservation_terminal (rid : Nat) (db : Store) :
    ((¬ ∃ r ∈ db.reservations, r.reservation_id = rid) →
      cancel_reservation rid db = (.error ⟨404, "Reservation not found."⟩, db)) ∧
    (∀ r, db.reservations.find? (fun r => r.reservation_id == rid) = some r →
      r.status = "Cancelled" →
      cancel_reservation rid db = (.error ⟨400, "Reservation is already cancelled."⟩, db)) ∧
    (∀ r seat, db.reservations.find? (fun r => r.reservation_id == rid) = some r →
      r.status = "Confirmed" →
      db.seats.find? (fun s => s.seat_id == r.seat_id) = some seat →
      cancel_reservation rid db =
        (.ok { reservation_id := r.reservation_id, client_id := r.client_id,
               seat_id := r.seat_id, train_id := seat.train_id,
               ticket_type := r.ticket_type, status := "Cancelled" },
         storeAfterCancel rid r.seat_id db) ∧
      (∀ r' ∈ (storeAfterCancel rid r.seat_id db).reservations,
        r'.reservation_id = rid → r'.status = "Cancelled") ∧
      (∀ s ∈ (storeAfterCancel rid r.seat_id db).seats,
        s.seat_id = r.seat_id → s.status = "Available") ∧
      cancel_reservation rid (storeAfterCancel rid r.seat_id db) =
        (.error ⟨400, "Reservation is already cancelled."⟩,
         storeAfterCancel rid r.seat_id db)) := by
  refine ⟨?_, ?_, ?_⟩
  · intro h
    have hnone : db.reservations.find? (fun r => r.reservation_id == rid) = none := by
      rw [List.find?_eq_none]
      intro r hr
      simp only [beq_iff_eq]
      exact fun h' => h ⟨r, hr, h'⟩
    simp [cancel_reservation, hnone]
  · intro r hfind hst
    simp [cancel_reservation, hfind, hst]
  · intro r seat hfind hst hseat
    have hid : r.reservation_id = rid := by simpa using List.find?_some hfind
    have hfind' : (storeAfterCancel rid r.seat_id db).reservations.find?
        (fun r' => r'.reservation_id == rid) =
        some { r with status := "Cancelled" } := by
      unfold storeAfterCancel
      rw [List.find?_map]
      have hp : ((fun r' : Reservation => r'.reservation_id == rid) ∘
          (fun r' => if r'.reservation_id == rid then { r' with status := "Cancelled" } else r')) =
          (fun r' : Reservation => r'.reservation_id == rid) := by
        funext r'
        by_cases h0 : r'.reservation_id = rid <;> simp [h0]
      rw [hp, hfind]
      simp [hid]
    refine ⟨?_, ?_, ?_, ?_⟩
    · simp [cancel_reservation, hfind, hst, hseat]
    · intro r' hr' hrid
      unfold storeAfterCancel at hr'
      simp only [List.mem_map] at hr'
      obtain ⟨r0, _, rfl⟩ := hr'
      by_cases h0 : r0.reservation_id = rid
      · simp [h0]
      · rw [if_neg (by simpa using h0)] at hrid ⊢
        exact absurd hrid h0
    · intro s hs hsid
      unfold storeAfterCancel at hs
      simp only [List.mem_map] at hs
      obtain ⟨s0, _, rfl⟩ := hs
      by_cases h0 : s0.seat_id = r.seat_id
      · simp [h0]
      · rw [if_neg (by simpa using h0)] at hsid ⊢
        exact absurd hsid h0
    · simp [cancel_reservation, hfind']

/-- C3 witness: after creating a reservation on the sample store, the first
cancel succeeds and the second fails with the 400 already-cancelled error,
with the seat back to Available. -/
theorem cancel_reservation_terminal_witness :
    cancel_reservation 1 (storeAfterCreate 1 10 "Flexible" sampleStore) =
      (.ok { reservation_id := 1, client_id := 1, seat_id := 10, train_id := 1,
             ticket_type := "Flexible", status := "Cancelled" },
       storeAfterCancel 1 10 (storeAfterCreate 1 10 "Flexible" sampleStore)) ∧
    cancel_reservation 1 (storeAfterCancel 1 10 (storeAfterCreate 1 10 "Flexible" sampleStore)) =
      (.error ⟨400, "Reservation is already cancelled."⟩,
       storeAfterCancel 1 10 (storeAfterCreate 1 10 "Flexible" sampleStore)) := by
  have h := (cancel_reservation_terminal 1 (storeAfterCreate 1 10 "Flexible" sampleStore)).2.2
    (createdReservation 1 10 "Flexible" sampleStore)
    { seat_id := 10, train_id := 1, seat_class := "Standard", status := "Reserved", fare := 50 }
    rfl rfl rfl
  exact ⟨h.1, h.2.2.2⟩

/-- A successful creation (the store found an Available seat row with the
requested id) preserves well-formedness and the seat/reservation
invariant. -/
theorem storeAfterCreate_preserves (cid sid : Nat) (tt : String) (db : Store) (seat : Seat)
    (hwf : wellFormed db) (hinv : seatReservationInvariant db)
    (hseat : db.seats.find? (fun s => s.seat_id == sid && s.status == "Available") = some seat) :
    wellFormed (storeAfterCreate cid sid tt db) ∧
    seatReservationInvariant (storeAfterCreate cid sid tt db) := by
  obtain ⟨hwf1, hwf2, hwf3, hwf4⟩ := hwf
  have hmem := List.mem_of_find?_eq_some hseat
  have hprop : seat.seat_id = sid ∧ seat.status = "Available" := by
    simpa using List.find?_some hseat
  have hallc : ∀ r ∈ db.reservations, r.seat_id = sid → r.status = "Cancelled" := by
    have h := ((hinv seat hmem).2).mp hprop.2
    intro r hr hsid
    exact h r hr (by rw [hsid, hprop.1])
  constructor
  · refine ⟨?_, ?_, ?_, ?_⟩
    · intro r hr
      rcases List.mem_append.mp hr with h | h
      · exact hwf1 r h
      · simp only [List.mem_singleton] at h
        subst h
        exact Or.inl rfl
    · intro r hr
      rcases List.mem_append.mp hr with h | h
      · exact Nat.lt_trans (hwf2 r h) (Nat.lt_succ_self _)
      · simp only [List.mem_singleton] at h
        subst h
        exact Nat.lt_succ_self _
    · show List.Pairwise (fun a b => a.reservation_id ≠ b.reservation_id)
        (db.reservations ++ [createdReservation cid sid tt db])
      rw [List.pairwise_append]
      refine ⟨hwf3, List.pairwise_singleton _ _, ?_⟩
      intro a ha b hb
      simp only [List.mem_singleton] at hb
      subst hb
      exact Nat.ne_of_lt (hwf2 a ha)
    · intro r1 hr1 r2 hr2 hc1 hc2 hsid12
      rcases List.mem_append.mp hr1 with h1 | h1 <;> rcases List.mem_append.mp hr2 with h2 | h2
      · exact hwf4 r1 h1 r2 h2 hc1 hc2 hsid12
      · simp only [List.mem_singleton] at h2
        subst h2
        have hc := hallc r1 h1 (by simpa [createdReservation] using hsid12)
        rw [hc1] at hc
        exact absurd hc (by decide)
      · simp only [List.mem_singleton] at h1
        subst h1
        have hc := hallc r2 h2 (by simpa [createdReservation] using hsid12.symm)
        rw [hc2] at hc
        exact absurd hc (by decide)
      · simp only [List.mem_singleton] at h1 h2
        rw [h1, h2]
  · unfold storeAfterCreate
    intro s' hs'
    simp only [List.mem_map] at hs'
    obtain ⟨s0, hs0, rfl⟩ := hs'
    have hbase := hinv s0 hs0
    by_cases h0 : s0.seat_id = sid
    · rw [if_pos (by simpa using h0)]
      constructor
      · constructor
        · intro _
          exact ⟨createdReservation cid sid tt db,
            List.mem_append_right _ (List.mem_singleton.mpr rfl), by simp [createdReservation, h0]⟩
        · intro _
          rfl
      · constructor
        · intro h
          have h' : ("Reserved" : String) = "Available" := h
          exact absurd h' (by decide)
        · intro hall
          have hc := hall (createdReservation cid sid tt db)
            (List.mem_append_right _ (List.mem_singleton.mpr rfl))
            (by simp [createdReservation, h0])
          have hc' : ("Confirmed" : String) = "Cancelled" := hc
          exact absurd hc' (by decide)
    · rw [if_neg (by simpa using h0)]
      constructor
      · refine hbase.1.trans ⟨fun ⟨r, hr, hp⟩ => ⟨r, List.mem_append_left _ hr, hp⟩, ?_⟩
        rintro ⟨r, hr, hsid, hconf⟩
        rcases List.mem_append.mp hr with h | h
        · exact ⟨r, h, hsid, hconf⟩
        · simp only [List.mem_singleton] at h
          subst h
          simp only [createdReservation] at hsid
          exact absurd hsid.symm h0
      · refine hbase.2.trans ⟨fun hall r hr hsid => ?_,
          fun hall r hr hsid => hall r (List.mem_append_left _ hr) hsid⟩
        rcases List.mem_append.mp hr with h | h
        · exact hall r h hsid
        · simp only [List.mem_singleton] at h
          subst h
          simp only [createdReservation] at hsid
          exact absurd hsid.symm h0

/-- A successful cancellation (the found reservation is not yet Cancelled)
preserves well-formedness and the seat/reservation invariant. -/
theorem storeAfterCancel_preserves (rid : Nat) (db : Store) (r : Reservation)
    (hwf : wellFormed db) (hinv : seatReservationInvariant db)
    (hfind : db.reservations.find? (fun x => x.reservation_id == rid) = some r)
    (hst : r.status ≠ "Cancelled") :
    wellFormed (storeAfterCancel rid r.seat_id db) ∧
    seatReservationInvariant (storeAfterCancel rid r.seat_id db) := by
  obtain ⟨hwf1, hwf2, hwf3, hwf4⟩ := hwf
  have hmem := List.mem_of_find?_eq_some hfind
  have hid : r.reservation_id = rid := by simpa using List.find?_some hfind
  have hconf : r.status = "Confirmed" := (hwf1 r hmem).resolve_right hst
  have huniqId : ∀ r0 ∈ db.reservations, r0.reservation_id = rid → r0 = r := by
    intro r0 h0 hr0
    by_contra hne
    exact hwf3.forall (fun a b h => Ne.symm h) h0 hmem hne (hr0.trans hid.symm)
  have hcancelled_on : ∀ r' ∈ (storeAfterCancel rid r.seat_id db).reservations,
      r'.seat_id = r.seat_id → r'.status = "Cancelled" := by
    intro r' hr' hsid
    obtain ⟨r0, h0, rfl⟩ := List.mem_map.mp hr'
    by_cases hr0 : r0.reservation_id = rid
    · rw [if_pos (by simpa using hr0)]
    · rw [if_neg (by simpa using hr0)] at hsid ⊢
      rcases hwf1 r0 h0 with hc | hc
      · have := hwf4 r0 h0 r hmem hc hconf hsid
        exact absurd (this.trans hid) hr0
      · exact hc
  constructor
  · refine ⟨?_, ?_, ?_, ?_⟩
    · intro r' hr'
      obtain ⟨r0, h0, rfl⟩ := List.mem_map.mp hr'
      by_cases hr0 : r0.reservation_id = rid
      · rw [if_pos (by simpa using hr0)]
        exact Or.inr rfl
      · rw [if_neg (by simpa using hr0)]
        exact hwf1 r0 h0
    · intro r' hr'
      obtain ⟨r0, h0, rfl⟩ := List.mem_map.mp hr'
      by_cases hr0 : r0.reservation_id = rid
      · rw [if_pos (by simpa using hr0)]
        exact hwf2 r0 h0
      · rw [if_neg (by simpa using hr0)]
        exact hwf2 r0 h0
    · show List.Pairwise (fun a b => a.reservation_id ≠ b.reservation_id)
        (db.reservations.map (fun r0 =>
          if r0.reservation_id == rid then { r0 with status := "Cancelled" } else r0))
      rw [List.pairwise_map]
      refine hwf3.imp ?_
      intro a b hab
      by_cases ha : a.reservation_id = rid
      · by_cases hb : b.reservation_id = rid
        · rw [if_pos (by simpa using ha), if_pos (by simpa using hb)]
          exact hab
        · rw [if_pos (by simpa using ha), if_neg (by simpa using hb)]
          exact hab
      · by_cases hb : b.reservation_id = rid
        · rw [if_neg (by simpa using ha), if_pos (by simpa using hb)]
          exact hab
        · rw [if_neg (by simpa using ha), if_neg (by simpa using hb)]
          exact hab
    · intro r1' hr1 r2' hr2 hc1 hc2 hs12
      obtain ⟨r1, h1, rfl⟩ := List.mem_map.mp hr1
      obtain ⟨r2, h2, rfl⟩ := List.mem_map.mp hr2
      by_cases hn1 : r1.reservation_id = rid
      · rw [if_pos (by simpa using hn1)] at hc1
        have h' : ("Cancelled" : String) = "Confirmed" := hc1
        exact absurd h' (by decide)
      · by_cases hn2 : r2.reservation_id = rid
        · rw [if_pos (by simpa using hn2)] at hc2
          have h' : ("Cancelled" : String) = "Confirmed" := hc2
          exact absurd h' (by decide)
        · rw [if_neg (by simpa using hn1)] at hc1 hs12 ⊢
          rw [if_neg (by simpa using hn2)] at hc2 hs12 ⊢
          exact hwf4 r1 h1 r2 h2 hc1 hc2 hs12
  · intro s' hs'
    obtain ⟨s0, hs0, rfl⟩ := List.mem_map.mp hs'
    have hbase := hinv s0 hs0
    by_cases h0 : s0.seat_id = r.seat_id
    · rw [if_pos (by simpa using h0)]
      constructor
      · constructor
        · intro h
          have h' : ("Available" : String) = "Reserved" := h
          exact absurd h' (by decide)
        · rintro ⟨r', hr', hsid', hconf'⟩
          have h1 : r'.seat_id = s0.seat_id := hsid'
          rw [h0] at h1
          have hc := hcancelled_on r' hr' h1
          rw [hconf'] at hc
          exact absurd hc (by decide)
      · constructor
        · intro _ r' hr' hsid'
          have h1 : r'.seat_id = s0.seat_id := hsid'
          rw [h0] at h1
          exact hcancelled_on r' hr' h1
        · intro _
          rfl
    · rw [if_neg (by simpa using h0)]
      have htrans : ∀ r0 ∈ db.reservations, r0.seat_id = s0.seat_id →
          (if r0.reservation_id == rid then { r0 with status := "Cancelled" } else r0) = r0 := by
        intro r0 hr0 hsid0
        have hng : ¬ r0.reservation_id = rid := by
          intro hid0
          have heq := huniqId r0 hr0 hid0
          rw [heq] at hsid0
          exact h0 hsid0.symm
        rw [if_neg (by simpa using hng)]
      constructor
      · refine hbase.1.trans ⟨?_, ?_⟩
        · rintro ⟨r0, hr0, hsid0, hconf0⟩
          exact ⟨r0, List.mem_map.mpr ⟨r0, hr0, htrans r0 hr0 hsid0⟩, hsid0, hconf0⟩
        · rintro ⟨r', hr', hsid', hconf'⟩
          obtain ⟨r0, h00, rfl⟩ := List.mem_map.mp hr'
          by_cases hn : r0.reservation_id = rid
          · rw [if_pos (by simpa using hn)] at hconf'
            have h' : ("Cancelled" : String) = "Confirmed" := hconf'
            exact absurd h' (by decide)
          · rw [if_neg (by simpa using hn)] at hsid' hconf'
            exact ⟨r0, h00, hsid', hconf'⟩
      · refine hbase.2.trans ⟨?_, ?_⟩
        · intro hall r' hr' hsid'
          obtain ⟨r0, h00, rfl⟩ := List.mem_map.mp hr'
          by_cases hn : r0.reservation_id = rid
          · rw [if_pos (by simpa using hn)]
          · rw [if_neg (by simpa using hn)] at hsid' ⊢
            exact hall r0 h00 hsid'
        · intro hall r0 hr0 hsid0
          exact hall r0 (List.mem_map.mpr ⟨r0, hr0, htrans r0 hr0 hsid0⟩) hsid0

/-- C1: for every Seat in the store, after every Reservation Engine
operation (`create_reservation`, `cancel_reservation`, whether it succeeds
or fails), the seat's status is Reserved iff there is a Confirmed
Reservation on it, and Available iff it has no Reservation or only
Cancelled ones; store well-formedness is preserved alongside. -/
theorem invariant_after_engine_operations (db : Store)
    (hwf : wellFormed db) (hinv : seatReservationInvariant db) :
    (∀ cid sid tt, wellFormed (create_reservation cid sid tt db).2 ∧
      seatReservationInvariant (create_reservation cid sid tt db).2) ∧
    (∀ rid, wellFormed (cancel_reservation rid db).2 ∧
      seatReservationInvariant (cancel_reservation rid db).2) := by
  constructor
  · intro cid sid tt
    rcases create_reservation_cases cid sid tt db with ⟨e, hE⟩ | ⟨seat, hseat, _, hOk⟩
    · rw [hE]
      exact ⟨hwf, hinv⟩
    · rw [hOk]
      exact storeAfterCreate_preserves cid sid tt db seat hwf hinv hseat
  · intro rid
    rcases cancel_reservation_cases rid db with ⟨e, hE⟩ | ⟨r, seat, hfind, hst, hseat, hOk⟩
    · rw [hE]
      exact ⟨hwf, hinv⟩
    · rw [hOk]
      exact storeAfterCancel_preserves rid db r hwf hinv hfind hst

/-- C1 witness: the sample store satisfies both hypotheses, and the
invariant holds after a concrete creation and a concrete cancellation. -/
theorem invariant_after_engine_operations_witness :
    wellFormed sampleStore ∧ seatReservationInvariant sampleStore ∧
    (wellFormed (create_reservation 1 10 "Flexible" sampleStore).2 ∧
      seatReservationInvariant (create_reservation 1 10 "Flexible" sampleStore).2) ∧
    (wellFormed (cancel_reservation 1 sampleStore).2 ∧
      seatReservationInvariant (cancel_reservation 1 sampleStore).2) :=
  ⟨by decide, by decide,
   (invariant_after_engine_operations sampleStore (by decide) (by decide)).1 1 10 "Flexible",
   (invariant_after_engine_operations sampleStore (by decide) (by decide)).2 1⟩

/-- If the store holds an Available seat row with the requested id, the
seat query of `create_reservation` finds one. -/
theorem exists_available_find?_some (db : Store) (sid : Nat)
    (h : ∃ s ∈ db.seats, s.seat_id = sid ∧ s.status = "Available") :
    ∃ seat, db.seats.find? (fun s => s.seat_id == sid && s.status == "Available") = some seat := by
  obtain ⟨s, hs, h1, h2⟩ := h
  exact Option.isSome_iff_exists.mp (List.find?_isSome.mpr ⟨s, hs, by simp [h1, h2]⟩)

/-- Valid inputs meeting an Available seat row make `create_reservation`
succeed with the `storeAfterCreate` store. -/
theorem create_reservation_succeeds (cid sid : Nat) (tt : String) (db : Store) (seat : Seat)
    (htt : tt = "Flexible" ∨ tt = "NonFlexible")
    (hcl : ∃ c ∈ db.clients, c.client_id = cid)
    (hfs : db.seats.find? (fun s => s.seat_id == sid && s.status == "Available") = some seat) :
    create_reservation cid sid tt db =
      (.ok { reservation_id := db.nextReservationId, client_id := cid, seat_id := sid,
             train_id := seat.train_id, ticket_type := tt, status := "Confirmed" },
       storeAfterCreate cid sid tt db) := by
  rcases hfc : db.clients.find? (fun c => c.client_id == cid) with _ | c
  · obtain ⟨c, hc, hcid⟩ := hcl
    rw [List.find?_eq_none] at hfc
    exact absurd (by simpa using hfc c hc) (by simpa using hcid)
  · rcases htt with h | h <;> subst h <;> simp [create_reservation, hfc, hfs]

/-- With no Available seat row carrying the id, `create_reservation` on a
valid ticket type and an existing client fails with the seat 404 and
leaves the store unchanged. -/
theorem create_reservation_seat_unavailable (cid sid : Nat) (tt : String) (db : Store)
    (htt : tt = "Flexible" ∨ tt = "NonFlexible")
    (hcl : ∃ c ∈ db.clients, c.client_id = cid)
    (h : ∀ s ∈ db.seats, s.seat_id = sid → s.status ≠ "Available") :
    create_reservation cid sid tt db =
      (.error ⟨404, "Seat not found or already reserved."⟩, db) := by
  have hnone : db.seats.find? (fun s => s.seat_id == sid && s.status == "Available") = none := by
    rw [List.find?_eq_none]
    intro s hs
    simp only [Bool.and_eq_true, beq_iff_eq, not_and]
    exact fun h1 h2 => h s hs h1 h2
  rcases hfc : db.clients.find? (fun c => c.client_id == cid) with _ | c
  · obtain ⟨c, hc, hcid⟩ := hcl
    rw [List.find?_eq_none] at hfc
    exact absurd (by simpa using hfc c hc) (by simpa using hcid)
  · rcases htt with h' | h' <;> subst h' <;> simp [create_reservation, hfc, hnone]

/-- After a successful creation, no seat row with the reserved id is
Available any more. -/
theorem storeAfterCreate_seat_not_available (cid sid : Nat) (tt : String) (db : Store) :
    ∀ s ∈ (storeAfterCreate cid sid tt db).seats, s.seat_id = sid → s.status ≠ "Available" := by
  intro s hs hsid
  obtain ⟨s0, _, rfl⟩ := List.mem_map.mp hs
  by_cases h0 : s0.seat_id = sid
  · rw [if_pos (by simpa using h0)]
    intro hc
    have h' : ("Reserved" : String) = "Available" := hc
    exact absurd h' (by decide)
  · rw [if_neg (by simpa using h0)] at hsid
    exact absurd hsid h0

/-- If every reservation sitting on the seat was Cancelled, the store after
a creation carries exactly the one new Confirmed reservation on it. -/
theorem confirmedOn_storeAfterCreate (cid sid : Nat) (tt : String) (db : Store)
    (hnone : ∀ r ∈ db.reservations, r.seat_id = sid → r.status = "Cancelled") :
    confirmedOn (storeAfterCreate cid sid tt db) sid = [createdReservation cid sid tt db] := by
  have h1 : db.reservations.filter (fun r => r.seat_id == sid && r.status == "Confirmed") = [] := by
    rw [List.filter_eq_nil_iff]
    intro r hr
    simp only [Bool.and_eq_true, beq_iff_eq, not_and]
    intro hsid
    rw [hnone r hr hsid]
    decide
  unfold confirmedOn storeAfterCreate
  show (db.reservations ++ [createdReservation cid sid tt db]).filter _ = _
  rw [List.filter_append, h1]
  simp [createdReservation]

/-- When no Available seat row with the id exists and every request is
well-formed, a whole batch of creations against that seat fails with the
seat 404, the store never changing. -/
theorem runCreates_all_fail (sid : Nat) (requests : List (Nat × String)) (db : Store)
    (hno : ∀ s ∈ db.seats, s.seat_id = sid → s.status ≠ "Available")
    (hreqs : ∀ p ∈ requests, (∃ c ∈ db.clients, c.client_id = p.1) ∧
      (p.2 = "Flexible" ∨ p.2 = "NonFlexible")) :
    runCreates sid requests db =
      (requests.map (fun _ => .error ⟨404, "Seat not found or already reserved."⟩), db) := by
  revert hreqs
  induction requests with
  | nil => intro _; rfl
  | cons p rest ih =>
    intro hreqs
    have hp := hreqs p (List.mem_cons_self _ _)
    have hfail := create_reservation_seat_unavailable p.1 sid p.2 db hp.2 hp.1 hno
    show ((create_reservation p.1 sid p.2 db).1 ::
            (runCreates sid rest (create_reservation p.1 sid p.2 db).2).1,
          (runCreates sid rest (create_reservation p.1 sid p.2 db).2).2) = _
    rw [hfail]
    show (Except.error ⟨404, "Seat not found or already reserved."⟩ ::
            (runCreates sid rest db).1, (runCreates sid rest db).2) = _
    rw [ih (fun q hq => hreqs q (List.mem_cons_of_mem _ hq))]
    rfl

/-- C4: exactly-once seat assignment: under the spec's §5 run-to-completion
scheduling model (each operation applies atomically, concurrency = an
arbitrary ordering of whole operations), any nonempty batch of otherwise
valid `create_reservation` calls against one Available seat yields exactly
one success and N−1 seat-NotFound failures, and the final store carries
exactly one Confirmed reservation on that seat. -/
theorem concurrent_creates_exactly_one_success (db : Store) (sid : Nat)
    (requests : List (Nat × String))
    (hinv : seatReservationInvariant db)
    (hseat : ∃ s ∈ db.seats, s.seat_id = sid ∧ s.status = "Available")
    (hreqs : ∀ p ∈ requests, (∃ c ∈ db.clients, c.client_id = p.1) ∧
      (p.2 = "Flexible" ∨ p.2 = "NonFlexible"))
    (hne : requests ≠ []) :
    ((runCreates sid requests db).1.countP (fun o => o.isOk)) = 1 ∧
    ((runCreates sid requests db).1.countP
      (fun o => o == .error ⟨404, "Seat not found or already reserved."⟩)) =
      requests.length - 1 ∧
    (confirmedOn (runCreates sid requests db).2 sid).length = 1 := by
  match requests, hne with
  | p :: rest, _ =>
    obtain ⟨seat, hfs⟩ := exists_available_find?_some db sid hseat
    have hp := hreqs p (List.mem_cons_self _ _)
    have hsucc := create_reservation_succeeds p.1 sid p.2 db seat hp.2 hp.1 hfs
    have hsprop : seat.seat_id = sid ∧ seat.status = "Available" := by
      simpa using List.find?_some hfs
    have hsmem := List.mem_of_find?_eq_some hfs
    have hcancelled : ∀ r ∈ db.reservations, r.seat_id = sid → r.status = "Cancelled" := by
      have h := ((hinv seat hsmem).2).mp hsprop.2
      intro r hr h1
      exact h r hr (by rw [h1, hsprop.1])
    have hconf1 := confirmedOn_storeAfterCreate p.1 sid p.2 db hcancelled
    have hno1 := storeAfterCreate_seat_not_available p.1 sid p.2 db
    have hrun := runCreates_all_fail sid rest (storeAfterCreate p.1 sid p.2 db) hno1
      (fun q hq => hreqs q (List.mem_cons_of_mem _ hq))
    have hmain : runCreates sid (p :: rest) db =
        (.ok { reservation_id := db.nextReservationId, client_id := p.1, seat_id := sid,
               train_id := seat.train_id, ticket_type := p.2, status := "Confirmed" } ::
          rest.map (fun _ => .error ⟨404, "Seat not found or already reserved."⟩),
         storeAfterCreate p.1 sid p.2 db) := by
      show ((create_reservation p.1 sid p.2 db).1 ::
              (runCreates sid rest (create_reservation p.1 sid p.2 db).2).1,
            (runCreates sid rest (create_reservation p.1 sid p.2 db).2).2) = _
      rw [hsucc]
      show (Except.ok _ :: (runCreates sid rest (storeAfterCreate p.1 sid p.2 db)).1,
            (runCreates sid rest (storeAfterCreate p.1 sid p.2 db)).2) = _
      rw [hrun]
    rw [hmain]
    have hcount0 : (rest.map (fun _ =>
        (Except.error ⟨404, "Seat not found or already reserved."⟩ :
          Except HTTPError ReservationResponse))).countP (fun o => o.isOk) = 0 := by
      apply List.countP_eq_zero.mpr
      intro a ha
      obtain ⟨_, _, rfl⟩ := List.mem_map.mp ha
      decide
    have hcomp : ((fun o : Except HTTPError ReservationResponse =>
          o == .error ⟨404, "Seat not found or already reserved."⟩) ∘
        (fun _ : Nat × String => (Except.error ⟨404, "Seat not found or already reserved."⟩ :
          Except HTTPError ReservationResponse))) = fun _ => true :=
      funext (fun _ => by simp)
    have hcountN : (rest.map (fun _ =>
        (Except.error ⟨404, "Seat not found or already reserved."⟩ :
          Except HTTPError ReservationResponse))).countP
        (fun o => o == .error ⟨404, "Seat not found or already reserved."⟩) = rest.length := by
      rw [List.countP_map, hcomp, List.countP_true]
    refine ⟨?_, ?_, ?_⟩
    · rw [List.countP_cons, hcount0]
      simp [Except.isOk, Except.toBool]
    · rw [List.countP_cons, hcountN, if_neg (fun h => Bool.noConfusion h)]
      simp
    · rw [hconf1]
      rfl

/-- C4 witness: three requests against available seat 10 of the sample
store give one success, two seat 404s, and one Confirmed reservation. -/
theorem concurrent_creates_exactly_one_success_witness :
    ((runCreates 10 [(1, "Flexible"), (1, "NonFlexible"), (1, "Flexible")] sampleStore).1.countP
      (fun o => o.isOk)) = 1 ∧
    ((runCreates 10 [(1, "Flexible"), (1, "NonFlexible"), (1, "Flexible")] sampleStore).1.countP
      (fun o => o == .error ⟨404, "Seat not found or already reserved."⟩)) = 2 ∧
    (confirmedOn
      (runCreates 10 [(1, "Flexible"), (1, "NonFlexible"), (1, "Flexible")] sampleStore).2
      10).length = 1 :=
  concurrent_creates_exactly_one_success sampleStore 10
    [(1, "Flexible"), (1, "NonFlexible"), (1, "Flexible")]
    (by decide) (by decide) (by decide) (by decide)

/-- The spec-language qualification predicate coincides with the source's
boolean row condition. -/
theorem qualifiesSpec_iff_pred (dep arr : String) (od rd : Option Int)
    (mi : Option Nat) (sc : Option String) (db : Store) (t : Train) :
    qualifiesSpec dep arr od rd mi sc db t ↔
      filterTrainsPred dep arr od rd mi sc db t = true := by
  have hmin : ((if optNatTruthy mi then
      decide (mi.getD 0 ≤ (availableSeatsOn db t.train_id sc).length) else true) = true) ↔
      (∀ m, mi = some m → m ≤ (availableSeatsOn db t.train_id sc).length) := by
    cases mi with
    | none => simp [optNatTruthy]
    | some m =>
      by_cases hm : m = 0
      · subst hm
        simp [optNatTruthy]
      · simp [optNatTruthy, hm]
  have hod : ((match od with
      | some d => decide (d ≤ t.departure_datetime) | none => true) = true) ↔
      (∀ d, od = some d → d ≤ t.departure_datetime) := by
    cases od <;> simp
  have hrd : ((match rd with
      | some d => decide (t.departure_datetime ≤ d) | none => true) = true) ↔
      (∀ d, rd = some d → t.departure_datetime ≤ d) := by
    cases rd <;> simp
  unfold qualifiesSpec filterTrainsPred trainRowFilter
  simp only [Bool.and_eq_true, beq_iff_eq, decide_eq_true_eq, hod, hrd, hmin]
  tauto

/-- `filter_trains` raises its 404 exactly when no train row satisfies the
source predicate. -/
theorem filter_trains_error_iff (dep arr : String) (od rd : Option Int)
    (mi : Option Nat) (sc : Option String) (db : Store) :
    filter_trains dep arr od rd mi sc db = .error ⟨404, "No available trains found."⟩ ↔
      ¬ ∃ t ∈ db.trains, filterTrainsPred dep arr od rd mi sc db t = true := by
  unfold filter_trains
  split
  · rename_i hEmpty
    rw [List.isEmpty_iff, List.filter_eq_nil_iff] at hEmpty
    constructor
    · rintro _ ⟨t, ht, hq⟩
      exact hEmpty t ht hq
    · intro _
      rfl
  · rename_i hNE
    constructor
    · intro h
      exact absurd h (by simp)
    · intro hno
      exfalso
      apply hNE
      rw [List.isEmpty_iff, List.filter_eq_nil_iff]
      intro t ht hq
      exact hno ⟨t, ht, hq⟩

/-- On success `filter_trains` returns precisely the image of the
qualifying train rows. -/
theorem filter_trains_ok_eq (dep arr : String) (od rd : Option Int)
    (mi : Option Nat) (sc : Option String) (db : Store) (l : List TrainResponse)
    (h : filter_trains dep arr od rd mi sc db = .ok l) :
    l = (db.trains.filter (filterTrainsPred dep arr od rd mi sc db)).map
      (mkTrainResponse db) := by
  unfold filter_trains at h
  split at h
  · exact absurd h (by simp)
  · simpa using h.symm

/-- C5: `filter_trains` fails 404 exactly when no train qualifies, and on
success returns exactly the trains matching the spec contract: stations
equal under case-sensitive equality, at least one Available seat after the
class filter, and the `min_available_seats` threshold when given; in
particular on the T1/T2 example store,
`filter_trains(StationA, StationB, min_available_seats = 2,
seat_class = Standard)` returns only T1. -/
theorem filter_trains_returns_exactly_matching (dep arr : String) (od rd : Option Int)
    (mi : Option Nat) (sc : Option String) (db : Store) :
    (filter_trains dep arr od rd mi sc db = .error ⟨404, "No available trains found."⟩ ↔
      ¬ ∃ t ∈ db.trains, qualifiesSpec dep arr od rd mi sc db t) ∧
    (∀ l, filter_trains dep arr od rd mi sc db = .ok l →
      (∀ resp ∈ l, ∃ t ∈ db.trains, qualifiesSpec dep arr od rd mi sc db t ∧
        resp = mkTrainResponse db t) ∧
      (∀ t ∈ db.trains, qualifiesSpec dep arr od rd mi sc db t →
        mkTrainResponse db t ∈ l)) ∧
    filter_trains "StationA" "StationB" none none (some 2) (some "Standard") filterStore =
      .ok [mkTrainResponse filterStore filterT1] := by
  refine ⟨?_, ?_, by rfl⟩
  · rw [filter_trains_error_iff]
    constructor
    · rintro hno ⟨t, ht, hq⟩
      exact hno ⟨t, ht, (qualifiesSpec_iff_pred dep arr od rd mi sc db t).mp hq⟩
    · rintro hno ⟨t, ht, hq⟩
      exact hno ⟨t, ht, (qualifiesSpec_iff_pred dep arr od rd mi sc db t).mpr hq⟩
  · intro l hl
    rw [filter_trains_ok_eq dep arr od rd mi sc db l hl]
    constructor
    · intro resp hresp
      obtain ⟨t, ht, rfl⟩ := List.mem_map.mp hresp
      rw [List.mem_filter] at ht
      exact ⟨t, ht.1, (qualifiesSpec_iff_pred dep arr od rd mi sc db t).mpr ht.2, rfl⟩
    · intro t ht hq
      exact List.mem_map.mpr ⟨t, List.mem_filter.mpr
        ⟨ht, (qualifiesSpec_iff_pred dep arr od rd mi sc db t).mp hq⟩, rfl⟩

/-- C5 witness: the success characterization applied to the T1/T2 example
query. -/
theorem filter_trains_returns_exactly_matching_witness :
    (∀ resp ∈ [mkTrainResponse filterStore filterT1], ∃ t ∈ filterStore.trains,
      qualifiesSpec "StationA" "StationB" none none (some 2) (some "Standard") filterStore t ∧
      resp = mkTrainResponse filterStore t) ∧
    (∀ t ∈ filterStore.trains,
      qualifiesSpec "StationA" "StationB" none none (some 2) (some "Standard") filterStore t →
      mkTrainResponse filterStore t ∈ [mkTrainResponse filterStore filterT1]) :=
  (filter_trains_returns_exactly_matching "StationA" "StationB" none none (some 2)
    (some "Standard") filterStore).2.1 [mkTrainResponse filterStore filterT1] rfl

/-- C6: both date filters of `filter_trains` are inclusive bounds on the
same `departure_datetime` field: every returned train departs at or after
`outbound_date` and at or before `return_date`, and conversely no train
inside the closed interval that meets the other criteria is excluded
(`return_date` does not model a return leg). -/
theorem filter_trains_date_bounds (dep arr : String) (odv rdv : Int)
    (mi : Option Nat) (sc : Option String) (db : Store) :
    ∀ l, filter_trains dep arr (some odv) (some rdv) mi sc db = .ok l →
      (∀ resp ∈ l, ∃ t ∈ db.trains, resp = mkTrainResponse db t ∧
        odv ≤ t.departure_datetime ∧ t.departure_datetime ≤ rdv) ∧
      (∀ t ∈ db.trains, qualifiesSpec dep arr none none mi sc db t →
        odv ≤ t.departure_datetime → t.departure_datetime ≤ rdv →
        mkTrainResponse db t ∈ l) := by
  have hq : ∀ t, qualifiesSpec dep arr (some odv) (some rdv) mi sc db t ↔
      (qualifiesSpec dep arr none none mi sc db t ∧
        odv ≤ t.departure_datetime ∧ t.departure_datetime ≤ rdv) := by
    intro t
    unfold qualifiesSpec
    simp only [Option.some.injEq, forall_eq', reduceCtorEq, false_implies, forall_const,
      true_and, and_true]
    tauto
  intro l hl
  rw [filter_trains_ok_eq dep arr (some odv) (some rdv) mi sc db l hl]
  constructor
  · intro resp hresp
    obtain ⟨t, ht, rfl⟩ := List.mem_map.mp hresp
    rw [List.mem_filter] at ht
    have := (hq t).mp ((qualifiesSpec_iff_pred dep arr (some odv) (some rdv) mi sc db t).mpr ht.2)
    exact ⟨t, ht.1, rfl, this.2⟩
  · intro t ht hq0 hlo hhi
    exact List.mem_map.mpr ⟨t, List.mem_filter.mpr ⟨ht,
      (qualifiesSpec_iff_pred dep arr (some odv) (some rdv) mi sc db t).mp
        ((hq t).mpr ⟨hq0, hlo, hhi⟩)⟩, rfl⟩

/-- C6 witness: querying with both date bounds equal to T1's departure day
returns T1 (the bounds are inclusive) and excludes T2. -/
theorem filter_trains_date_bounds_witness :
    (∀ resp ∈ [mkTrainResponse filterStore filterT1], ∃ t ∈ filterStore.trains,
      resp = mkTrainResponse filterStore t ∧
      (5 : Int) ≤ t.departure_datetime ∧ t.departure_datetime ≤ (5 : Int)) ∧
    (∀ t ∈ filterStore.trains,
      qualifiesSpec "StationA" "StationB" none none none (some "Standard") filterStore t →
      (5 : Int) ≤ t.departure_datetime → t.departure_datetime ≤ (5 : Int) →
      mkTrainResponse filterStore t ∈ [mkTrainResponse filterStore filterT1]) :=
  filter_trains_date_bounds "StationA" "StationB" 5 5 none (some "Standard") filterStore
    [mkTrainResponse filterStore filterT1] rfl

/-- Membership through the fare-descending insertion. -/
theorem mem_insertFareDesc {b s : Seat} {l : List Seat} :
    b ∈ insertFareDesc s l ↔ b = s ∨ b ∈ l := by
  induction l with
  | nil => simp [insertFareDesc]
  | cons t ts ih =>
    unfold insertFareDesc
    by_cases hc : t.fare < s.fare
    · rw [if_pos hc]
      simp [List.mem_cons]
    · rw [if_neg hc]
      simp only [List.mem_cons, ih]
      tauto

/-- The fare-descending insertion never produces the empty list. -/
theorem insertFareDesc_ne_nil (s : Seat) (l : List Seat) : insertFareDesc s l ≠ [] := by
  cases l with
  | nil => simp [insertFareDesc]
  | cons t ts =>
    unfold insertFareDesc
    by_cases hc : t.fare < s.fare
    · rw [if_pos hc]
      simp
    · rw [if_neg hc]
      simp

/-- The fare sort returns the empty list only on the empty list. -/
theorem sortByFareDesc_eq_nil_iff (l : List Seat) : sortByFareDesc l = [] ↔ l = [] := by
  cases l with
  | nil => simp [sortByFareDesc]
  | cons s ss =>
    simp only [sortByFareDesc]
    constructor
    · intro h
      exact absurd h (insertFareDesc_ne_nil s _)
    · intro h
      exact absurd h (List.cons_ne_nil s ss)

/-- The fare sort is a permutation at the membership level. -/
theorem mem_sortByFareDesc {b : Seat} {l : List Seat} :
    b ∈ sortByFareDesc l ↔ b ∈ l := by
  induction l with
  | nil => simp [sortByFareDesc]
  | cons s ss ih =>
    simp only [sortByFareDesc]
    rw [mem_insertFareDesc]
    simp [ih]

/-- Inserting into a fare-descending list keeps it fare-descending. -/
theorem insertFareDesc_sorted (s : Seat) (l : List Seat)
    (h : l.Pairwise (fun a b => b.fare ≤ a.fare)) :
    (insertFareDesc s l).Pairwise (fun a b => b.fare ≤ a.fare) := by
  induction l with
  | nil => simp [insertFareDesc]
  | cons t ts ih =>
    rw [List.pairwise_cons] at h
    unfold insertFareDesc
    by_cases hc : t.fare < s.fare
    · rw [if_pos hc]
      rw [List.pairwise_cons]
      refine ⟨?_, List.pairwise_cons.mpr h⟩
      intro b hb
      rcases List.mem_cons.mp hb with rfl | hb'
      · exact le_of_lt hc
      · exact le_trans (h.1 b hb') (le_of_lt hc)
    · rw [if_neg hc]
      rw [List.pairwise_cons]
      refine ⟨?_, ih h.2⟩
      intro b hb
      rcases mem_insertFareDesc.mp hb with rfl | hb'
      · exact not_lt.mp hc
      · exact h.1 b hb'

/-- The model of `ORDER BY fare DESC` is fare-descending. -/
theorem sortByFareDesc_sorted (l : List Seat) :
    (sortByFareDesc l).Pairwise (fun a b => b.fare ≤ a.fare) := by
  induction l with
  | nil => simp [sortByFareDesc]
  | cons s ss ih => exact insertFareDesc_sorted s _ ih

/-- A member of the `get_train_seats` base query is an Available seat row
of the train. -/
theorem mem_availableSeatsQuery {s : Seat} {tid : Nat} {sc : Option String} {db : Store} :
    s ∈ availableSeatsQuery tid sc db →
    s ∈ db.seats ∧ s.train_id = tid ∧ s.status = "Available" := by
  intro hs
  unfold availableSeatsQuery at hs
  by_cases h : optStrTruthy sc = true
  · rw [if_pos h] at hs
    obtain ⟨hs1, _⟩ := List.mem_filter.mp hs
    obtain ⟨hmem, hcond⟩ := List.mem_filter.mp hs1
    simp only [Bool.and_eq_true, beq_iff_eq] at hcond
    exact ⟨hmem, hcond⟩
  · rw [if_neg h] at hs
    obtain ⟨hmem, hcond⟩ := List.mem_filter.mp hs
    simp only [Bool.and_eq_true, beq_iff_eq] at hcond
    exact ⟨hmem, hcond⟩

/-- Every class bucket of `get_train_seats` holds only Available seats of
the train, carrying the bucket's class, and is fare-descending. -/
theorem seatBucket_facts (tid : Nat) (sc : Option String) (db : Store) (cls : String) :
    (∀ sr ∈ seatBucket tid sc db cls, sr.seat_class = cls ∧ sr.status = "Available" ∧
      sr.train_id = tid ∧ ∃ s ∈ db.seats, s.seat_id = sr.seat_id ∧ s.train_id = tid ∧
        s.status = "Available" ∧ s.seat_class = sr.seat_class ∧ s.fare = sr.fare) ∧
    (seatBucket tid sc db cls).Pairwise
      (fun a b : SeatResponse => b.fare ≤ a.fare) := by
  constructor
  · intro sr hsr
    unfold seatBucket at hsr
    obtain ⟨hmem, hcls⟩ := List.mem_filter.mp hsr
    unfold serializedSeats at hmem
    obtain ⟨s, hs, rfl⟩ := List.mem_map.mp hmem
    rw [mem_sortByFareDesc] at hs
    obtain ⟨hsdb, htid, hav⟩ := mem_availableSeatsQuery hs
    simp only [beq_iff_eq] at hcls
    exact ⟨hcls, hav, htid, s, hsdb, rfl, htid, hav, rfl, rfl⟩
  · unfold seatBucket serializedSeats
    apply List.Pairwise.filter
    rw [List.pairwise_map]
    exact sortByFareDesc_sorted _

/-- C7: on success `get_train_seats` returns only Available seats of the
requested train, grouped by seat class (every seat of a bucket carries the
bucket's class and corresponds to an Available seat row of the train), and
each bucket is sorted by fare in descending order. -/
theorem get_train_seats_sorted_grouped (tid : Nat) (sc : Option String) (db : Store) :
    ∀ resp, get_train_seats tid sc db = .ok resp →
      resp.train_id = tid ∧
      ∀ pair ∈ resp.seats,
        (∀ sr ∈ pair.2, sr.seat_class = pair.1 ∧ sr.status = "Available" ∧ sr.train_id = tid ∧
          ∃ s ∈ db.seats, s.seat_id = sr.seat_id ∧ s.train_id = tid ∧
            s.status = "Available" ∧ s.seat_class = sr.seat_class ∧ s.fare = sr.fare) ∧
        pair.2.Pairwise (fun a b : SeatResponse => b.fare ≤ a.fare) := by
  intro resp h
  unfold get_train_seats at h
  split at h
  · exact absurd h (by simp)
  · split at h
    · injection h with h'
      subst h'
      refine ⟨rfl, ?_⟩
      intro pair hpair
      simp only [List.mem_singleton] at hpair
      subst hpair
      by_cases hC : (sc.getD "" == "First" || sc.getD "" == "Business" ||
          sc.getD "" == "Standard") = true
      · rw [if_pos hC]
        exact ⟨(seatBucket_facts tid sc db (sc.getD "")).1,
               (seatBucket_facts tid sc db (sc.getD "")).2⟩
      · rw [if_neg hC]
        constructor
        · intro sr hsr
          exact absurd hsr (by simp)
        · simp
    · injection h with h'
      subst h'
      refine ⟨rfl, ?_⟩
      intro pair hpair
      simp only [List.mem_cons, List.not_mem_nil, or_false] at hpair
      rcases hpair with rfl | rfl | rfl <;>
        exact ⟨(seatBucket_facts tid sc db _).1, (seatBucket_facts tid sc db _).2⟩

/-- C7 witness: the grouping/ordering facts instantiated on the concrete
response for train 1 of the example store. -/
theorem get_train_seats_sorted_grouped_witness :
    exampleSeatsResponse.train_id = 1 ∧
    ∀ pair ∈ exampleSeatsResponse.seats,
      (∀ sr ∈ pair.2, sr.seat_class = pair.1 ∧ sr.status = "Available" ∧ sr.train_id = 1 ∧
        ∃ s ∈ filterStore.seats, s.seat_id = sr.seat_id ∧ s.train_id = 1 ∧
          s.status = "Available" ∧ s.seat_class = sr.seat_class ∧ s.fare = sr.fare) ∧
      pair.2.Pairwise (fun a b : SeatResponse => b.fare ≤ a.fare) :=
  get_train_seats_sorted_grouped 1 none filterStore exampleSeatsResponse rfl

/-- `get_train_seats` raises its 404 exactly when its filtered seat query
comes back empty. -/
theorem get_train_seats_error_iff (tid : Nat) (sc : Option String) (db : Store) :
    get_train_seats tid sc db =
        .error ⟨404, "No available seats found for the specified train."⟩ ↔
      availableSeatsQuery tid sc db = [] := by
  unfold get_train_seats
  split
  · rename_i hE
    rw [List.isEmpty_iff, sortByFareDesc_eq_nil_iff] at hE
    exact ⟨fun _ => hE, fun _ => rfl⟩
  · rename_i hNE
    constructor
    · intro h
      exfalso
      split at h <;> exact absurd h (by simp)
    · intro h
      exfalso
      apply hNE
      rw [List.isEmpty_iff, sortByFareDesc_eq_nil_iff]
      exact h

/-- C8: `get_train_seats` fails 404 exactly when its filtered result is
empty: for a given seat class the 404 comes exactly when that class has no
Available seat on the train (even if other classes do); with no class
filter the 404 comes exactly when the train has no Available seat at
all. -/
theorem get_train_seats_notfound_iff (tid : Nat) (db : Store) :
    (∀ sc ∈ (["First", "Business", "Standard"] : List String),
      (get_train_seats tid (some sc) db =
          .error ⟨404, "No available seats found for the specified train."⟩ ↔
        ¬ ∃ s ∈ db.seats, s.train_id = tid ∧ s.status = "Available" ∧
          s.seat_class = sc)) ∧
    (get_train_seats tid none db =
        .error ⟨404, "No available seats found for the specified train."⟩ ↔
      ¬ ∃ s ∈ db.seats, s.train_id = tid ∧ s.status = "Available") := by
  constructor
  · intro sc hsc
    have hne : sc ≠ "" := by
      rcases (by simpa using hsc : sc = "First" ∨ sc = "Business" ∨ sc = "Standard")
        with rfl | rfl | rfl <;> decide
    rw [get_train_seats_error_iff]
    unfold availableSeatsQuery
    rw [if_pos (by simp [optStrTruthy, hne])]
    rw [List.filter_filter, List.filter_eq_nil_iff]
    constructor
    · rintro hall ⟨s, hs, h1, h2, h3⟩
      exact hall s hs (by simp [h1, h2, h3])
    · intro hno s hs hcond
      simp only [Bool.and_eq_true, beq_iff_eq] at hcond
      exact hno ⟨s, hs, hcond.2.1, hcond.2.2, hcond.1⟩
  · rw [get_train_seats_error_iff]
    unfold availableSeatsQuery
    rw [if_neg (by simp [optStrTruthy])]
    rw [List.filter_eq_nil_iff]
    constructor
    · rintro hall ⟨s, hs, h1, h2⟩
      exact hall s hs (by simp [h1, h2])
    · intro hno s hs hcond
      simp only [Bool.and_eq_true, beq_iff_eq] at hcond
      exact hno ⟨s, hs, hcond⟩

/-- C8 witness: train 2 of the example store has an Available First-class
seat but no Available Business seat, so the Business-filtered query 404s
exactly per the characterization. -/
theorem get_train_seats_notfound_iff_witness :
    get_train_seats 2 (some "Business") filterStore =
        .error ⟨404, "No available seats found for the specified train."⟩ ↔
      ¬ ∃ s ∈ filterStore.seats, s.train_id = 2 ∧ s.status = "Available" ∧
        s.seat_class = "Business" :=
  (get_train_seats_notfound_iff 2 filterStore).1 "Business" (by decide)

/-- A found, not-yet-cancelled reservation whose seat row exists makes
`cancel_reservation` succeed with the `storeAfterCancel` store. -/
theorem cancel_reservation_succeeds (rid : Nat) (db : Store) (r : Reservation) (seat : Seat)
    (hfind : db.reservations.find? (fun x => x.reservation_id == rid) = some r)
    (hst : r.status ≠ "Cancelled")
    (hseat : db.seats.find? (fun s => s.seat_id == r.seat_id) = some seat) :
    cancel_reservation rid db =
      (.ok { reservation_id := r.reservation_id, client_id := r.client_id,
             seat_id := r.seat_id, train_id := seat.train_id,
             ticket_type := r.ticket_type, status := "Cancelled" },
       storeAfterCancel rid r.seat_id db) := by
  simp [cancel_reservation, hfind, hst, hseat]

/-- When the client exists and some reservation row survives the filters,
`get_client_reservations` returns the mapped query rows, including the
record of any surviving row. -/
theorem get_client_reservations_ok_of_mem (cid : Nat) (st : Option String) (db : Store)
    (r : Reservation)
    (hcl : ∃ c ∈ db.clients, c.client_id = cid)
    (hr : r ∈ clientReservationsQuery cid st db) :
    get_client_reservations cid st db =
      .ok ((clientReservationsQuery cid st db).map (mkClientReservationRecord db)) ∧
    mkClientReservationRecord db r ∈
      (clientReservationsQuery cid st db).map (mkClientReservationRecord db) := by
  constructor
  · rcases hfc : db.clients.find? (fun c => c.client_id == cid) with _ | c
    · obtain ⟨c, hc, hcid⟩ := hcl
      rw [List.find?_eq_none] at hfc
      exact absurd (by simpa using hfc c hc) (by simpa using hcid)
    · have hne : ¬ (clientReservationsQuery cid st db).isEmpty = true := by
        rw [List.isEmpty_iff]
        intro h0
        rw [h0] at hr
        exact absurd hr (List.not_mem_nil _)
      simp [get_client_reservations, hfc, hne]
  · exact List.mem_map.mpr ⟨r, hr, rfl⟩

/-- On success `get_client_reservations` returns precisely the mapped
query rows. -/
theorem get_client_reservations_ok_eq (cid : Nat) (st : Option String) (db : Store)
    (l : List ClientReservationRecord)
    (h : get_client_reservations cid st db = .ok l) :
    l = (clientReservationsQuery cid st db).map (mkClientReservationRecord db) := by
  unfold get_client_reservations at h
  split at h
  · exact absurd h (by simp)
  · split at h
    · exact absurd h (by simp)
    · simpa using h.symm

/-- C9: the round trip across the Reservation Engine and
`get_client_reservations`: creating a Flexible reservation for an existing
client on an Available seat S succeeds; the client's reservation listing
then includes that reservation with seat S and status Confirmed; after
cancelling it, the Cancelled-filtered listing includes it and the
Confirmed-filtered listing does not. -/
theorem reservation_round_trip (db : Store) (cid S : Nat)
    (hwf : wellFormed db)
    (hcl : ∃ c ∈ db.clients, c.client_id = cid)
    (hseat : ∃ s ∈ db.seats, s.seat_id = S ∧ s.status = "Available") :
    ∃ resp db1,
      create_reservation cid S "Flexible" db = (.ok resp, db1) ∧
      resp.seat_id = S ∧
      (∃ l, get_client_reservations cid none db1 = .ok l ∧
        ∃ rec ∈ l, rec.seat_id = S ∧ rec.status = "Confirmed" ∧
          rec.reservation_id = resp.reservation_id) ∧
      (∃ resp2 db2, cancel_reservation resp.reservation_id db1 = (.ok resp2, db2) ∧
        (∃ l, get_client_reservations cid (some "Cancelled") db2 = .ok l ∧
          ∃ rec ∈ l, rec.seat_id = S ∧ rec.status = "Cancelled" ∧
            rec.reservation_id = resp.reservation_id) ∧
        (∀ l, get_client_reservations cid (some "Confirmed") db2 = .ok l →
          ∀ rec ∈ l, rec.reservation_id ≠ resp.reservation_id)) := by
  obtain ⟨seat, hfs⟩ := exists_available_find?_some db S hseat
  have hsucc := create_reservation_succeeds cid S "Flexible" db seat (Or.inl rfl) hcl hfs
  have hsp : seat.seat_id = S ∧ seat.status = "Available" := by
    simpa using List.find?_some hfs
  have hsmem := List.mem_of_find?_eq_some hfs
  refine ⟨_, _, hsucc, rfl, ?_, ?_⟩
  · have hmem1 : createdReservation cid S "Flexible" db ∈
        clientReservationsQuery cid none (storeAfterCreate cid S "Flexible" db) := by
      unfold clientReservationsQuery
      rw [if_neg (by simp [optStrTruthy])]
      apply List.mem_filter.mpr
      constructor
      · exact List.mem_append_right _ (List.mem_singleton.mpr rfl)
      · simp [createdReservation]
    obtain ⟨hok, hmemrec⟩ := get_client_reservations_ok_of_mem cid none
      (storeAfterCreate cid S "Flexible" db) _ hcl hmem1
    exact ⟨_, hok, _, hmemrec, rfl, rfl, rfl⟩
  · have hnone : db.reservations.find?
        (fun r => r.reservation_id == db.nextReservationId) = none := by
      rw [List.find?_eq_none]
      intro r hr
      simp only [beq_iff_eq]
      exact Nat.ne_of_lt (hwf.2.1 r hr)
    have hfind1 : (storeAfterCreate cid S "Flexible" db).reservations.find?
        (fun r => r.reservation_id == db.nextReservationId) =
        some (createdReservation cid S "Flexible" db) := by
      show (db.reservations ++ [createdReservation cid S "Flexible" db]).find? _ = _
      rw [List.find?_append, hnone]
      simp [createdReservation]
    have hs2 : ∃ s2, (storeAfterCreate cid S "Flexible" db).seats.find?
        (fun s => s.seat_id == (createdReservation cid S "Flexible" db).seat_id) =
        some s2 := by
      apply Option.isSome_iff_exists.mp
      apply List.find?_isSome.mpr
      refine ⟨{ seat with status := "Reserved" }, ?_, ?_⟩
      · exact List.mem_map.mpr ⟨seat, hsmem, by rw [if_pos (by simpa using hsp.1)]⟩
      · simp [createdReservation, hsp.1]
    obtain ⟨s2, hfseat1⟩ := hs2
    have hcancel := cancel_reservation_succeeds db.nextReservationId
      (storeAfterCreate cid S "Flexible" db) (createdReservation cid S "Flexible" db) s2
      hfind1 (fun h => absurd (show ("Confirmed" : String) = "Cancelled" from h) (by decide))
      hfseat1
    refine ⟨_, _, hcancel, ?_, ?_⟩
    · have hmem2 : ({ createdReservation cid S "Flexible" db with status := "Cancelled" } :
          Reservation) ∈ clientReservationsQuery cid (some "Cancelled")
          (storeAfterCancel db.nextReservationId
            (createdReservation cid S "Flexible" db).seat_id
            (storeAfterCreate cid S "Flexible" db)) := by
        unfold clientReservationsQuery
        rw [if_pos (by simp [optStrTruthy])]
        apply List.mem_filter.mpr
        refine ⟨List.mem_filter.mpr ⟨?_, by simp [createdReservation]⟩, by simp⟩
        exact List.mem_map.mpr ⟨createdReservation cid S "Flexible" db,
          List.mem_append_right _ (List.mem_singleton.mpr rfl),
          by rw [if_pos (by simp [createdReservation])]⟩
      obtain ⟨hok2, hmemrec2⟩ := get_client_reservations_ok_of_mem cid (some "Cancelled")
        (storeAfterCancel db.nextReservationId
          (createdReservation cid S "Flexible" db).seat_id
          (storeAfterCreate cid S "Flexible" db)) _ hcl hmem2
      exact ⟨_, hok2, _, hmemrec2, rfl, rfl, rfl⟩
    · intro l hl rec hrec
      rw [get_client_reservations_ok_eq cid (some "Confirmed") _ l hl] at hrec
      obtain ⟨r0, hr0, rfl⟩ := List.mem_map.mp hrec
      unfold clientReservationsQuery at hr0
      rw [if_pos (by simp [optStrTruthy])] at hr0
      obtain ⟨hr0', hst0⟩ := List.mem_filter.mp hr0
      obtain ⟨hr0'', _⟩ := List.mem_filter.mp hr0'
      obtain ⟨r1, hr1, rfl⟩ := List.mem_map.mp hr0''
      simp only [beq_iff_eq] at hst0
      by_cases hid1 : r1.reservation_id = db.nextReservationId
      · rw [if_pos (by simpa using hid1)] at hst0
        exact absurd (show ("Cancelled" : String) = "Confirmed" from hst0) (by decide)
      · rw [if_neg (by simpa using hid1)]
        exact hid1

/-- C9 witness: the round trip run on the sample store for client 1 and
available seat 10. -/
theorem reservation_round_trip_witness :
    ∃ resp db1,
      create_reservation 1 10 "Flexible" sampleStore = (.ok resp, db1) ∧
      resp.seat_id = 10 ∧
      (∃ l, get_client_reservations 1 none db1 = .ok l ∧
        ∃ rec ∈ l, rec.seat_id = 10 ∧ rec.status = "Confirmed" ∧
          rec.reservation_id = resp.reservation_id) ∧
      (∃ resp2 db2, cancel_reservation resp.reservation_id db1 = (.ok resp2, db2) ∧
        (∃ l, get_client_reservations 1 (some "Cancelled") db2 = .ok l ∧
          ∃ rec ∈ l, rec.seat_id = 10 ∧ rec.status = "Cancelled" ∧
            rec.reservation_id = resp.reservation_id) ∧
        (∀ l, get_client_reservations 1 (some "Confirmed") db2 = .ok l →
          ∀ rec ∈ l, rec.reservation_id ≠ resp.reservation_id)) :=
  reservation_round_trip sampleStore 1 10 (by decide) (by decide) (by decide)

end SOAProject
